import Mathlib

/-!
Verification of the Cube Parkour simulation core.

The definitions below are a shallow embedding of the game's simulation
step and session controller.  JavaScript numbers are modelled as
rationals (the collision and scoring code only adds, multiplies,
compares and floors), except for the sinusoidal entity-motion updater,
which is modelled over the reals because it applies the sine function.
-/

namespace CubeParkour

/-! ## Constants (from the constants module) -/

def GRAVITY : ℚ := 0.32
def MOVE_SPEED : ℚ := 2.2
def RUN_SPEED : ℚ := 4.0
def CROUCH_SPEED : ℚ := 1.0
def JUMP_FORCE : ℚ := -9.2
def BOUNCE_FORCE : ℚ := -15.0
def MAX_FALL_SPEED : ℚ := 8.0
def PLAYER_SIZE : ℚ := 32
def CROUCH_HEIGHT : ℚ := 16
def MAX_JUMPS : ℕ := 2
def DEFAULT_MAX_HP : ℚ := 100
def INITIAL_LIVES : ℤ := 3

/-! ## Modifiers -/

inductive ModKey
  | energized
  | lowGravity
  | highGravity
  | oldSchool
  | hardcore
  | tanky
deriving DecidableEq

/-- Score multipliers from MODIFIER_CONFIG. -/
def scoreMultOf : ModKey → ℚ
  | ModKey.energized => 0.8
  | ModKey.lowGravity => 0.7
  | ModKey.highGravity => 1.3
  | ModKey.oldSchool => 1.5
  | ModKey.hardcore => 2.0
  | ModKey.tanky => 0.6

/-- MODIFIER_CONFIG.hardcore.lives. -/
def hardcoreLives : ℤ := 1

structure GameModifiers where
  energized : Bool
  lowGravity : Bool
  highGravity : Bool
  hardcore : Bool
  oldSchool : Bool
  tanky : Bool
deriving DecidableEq

def initialModifiers : GameModifiers :=
  { energized := false, lowGravity := false, highGravity := false,
    hardcore := false, oldSchool := false, tanky := false }

def getMod (m : GameModifiers) : ModKey → Bool
  | ModKey.energized => m.energized
  | ModKey.lowGravity => m.lowGravity
  | ModKey.highGravity => m.highGravity
  | ModKey.oldSchool => m.oldSchool
  | ModKey.hardcore => m.hardcore
  | ModKey.tanky => m.tanky

def setMod (m : GameModifiers) (k : ModKey) (b : Bool) : GameModifiers :=
  match k with
  | ModKey.energized => { m with energized := b }
  | ModKey.lowGravity => { m with lowGravity := b }
  | ModKey.highGravity => { m with highGravity := b }
  | ModKey.oldSchool => { m with oldSchool := b }
  | ModKey.hardcore => { m with hardcore := b }
  | ModKey.tanky => { m with tanky := b }

/-- toggleModifier: flip the key, then apply the mutual-exclusivity rules. -/
def toggleModifier (m : GameModifiers) (k : ModKey) : GameModifiers :=
  let next := setMod m k (!(getMod m k))
  let next := if k = ModKey.lowGravity ∧ next.lowGravity then
      { next with highGravity := false } else next
  let next := if k = ModKey.highGravity ∧ next.highGravity then
      { next with lowGravity := false, oldSchool := false } else next
  if k = ModKey.oldSchool ∧ next.oldSchool then
    { next with highGravity := false } else next

/-- The mutual-exclusion invariant of the modifier panel: heavy gravity is
never active together with low gravity or with the reduced jump count. -/
abbrev exclusionInv (m : GameModifiers) : Prop :=
  (m.highGravity && m.lowGravity) = false ∧
  (m.highGravity && m.oldSchool) = false

/-- calculateScoreMultiplier: product of the active modifiers' multipliers,
accumulated in the same order as the source. -/
def calculateScoreMultiplier (m : GameModifiers) : ℚ :=
  let mult := (1.0 : ℚ)
  let mult := if m.energized then mult * scoreMultOf ModKey.energized else mult
  let mult := if m.lowGravity then mult * scoreMultOf ModKey.lowGravity else mult
  let mult := if m.highGravity then mult * scoreMultOf ModKey.highGravity else mult
  let mult := if m.hardcore then mult * scoreMultOf ModKey.hardcore else mult
  let mult := if m.oldSchool then mult * scoreMultOf ModKey.oldSchool else mult
  if m.tanky then mult * scoreMultOf ModKey.tanky else mult

/-- Points added to the cumulative score by handleLevelComplete,
computed from the per-level (deaths, restarts) counters. -/
def handleLevelCompletePoints (levelDeaths levelRestarts : ℕ)
    (m : GameModifiers) : ℤ :=
  let points : ℤ :=
    if levelRestarts > 1 then 0
    else if levelRestarts = 1 then 25
    else if levelDeaths = 0 then 100
    else if levelDeaths ≤ 2 then 50
    else 10
  Int.floor ((points : ℚ) * calculateScoreMultiplier m)

def hardcoreOnly : GameModifiers := { initialModifiers with hardcore := true }

/-! ## Geometry and entities -/

structure Vec2 where
  x : ℚ
  y : ℚ
deriving DecidableEq

inductive EntityType
  | platform
  | spike
  | lava
  | coin
  | finish
  | checkpoint
  | text
  | bouncy
deriving DecidableEq

structure Entity where
  id : String
  type : EntityType
  pos : Vec2
  size : Vec2
  damage : Option ℚ
  collected : Bool
  active : Bool
deriving DecidableEq

/-- AABB overlap test (checkCollision). -/
def checkCollision (pos1 size1 pos2 size2 : Vec2) : Bool :=
  decide (pos1.x < pos2.x + size2.x) && decide (pos1.x + size1.x > pos2.x) &&
  decide (pos1.y < pos2.y + size2.y) && decide (pos1.y + size1.y > pos2.y)

/-! ## Player state -/

structure Player where
  pos : Vec2
  vel : Vec2
  size : Vec2
  isGrounded : Bool
  isCrouching : Bool
  isDead : Bool
  jumpsRemaining : ℕ
  hp : ℚ
  invulnerableUntil : ℕ
  facingRight : Bool
deriving DecidableEq

/-- The player state installed by the per-level reset effect of the canvas
(the component remounts when the level index or the reset key changes):
position at the level's spawn point, zero velocity, full HP and jumps. -/
def initPlayer (maxJumps : ℕ) (maxHp : ℚ) (spawn : Vec2) : Player :=
  { pos := spawn, vel := { x := 0, y := 0 },
    size := { x := PLAYER_SIZE, y := PLAYER_SIZE },
    isGrounded := false, isCrouching := false, isDead := false,
    jumpsRemaining := maxJumps, hp := maxHp, invulnerableUntil := 0,
    facingRight := true }

/-! ## Jump logic (consumes the one-shot jump-request latch) -/

/-- Jump step of the update loop.  The pair is (player, jumpRequested latch);
the latch is cleared whenever it was set, whether or not a jump was granted.
(The source also distinguishes first from later jumps, but only to pick an
audio cue.) -/
def jumpStep (jumpForce : ℚ) (st : Player × Bool) :
    Player × Bool :=
  let p := st.1
  if st.2 then
    let p1 :=
      if p.jumpsRemaining > 0 then
        { p with vel := { p.vel with y := jumpForce },
                 isGrounded := false,
                 jumpsRemaining := p.jumpsRemaining - 1 }
      else p
    (p1, false)
  else st

/-! ## Horizontal collision pass -/

/-- Apply the horizontal displacement and clamp to the level bounds,
zeroing the horizontal velocity at either edge. -/
def applyHorizontalBounds (width : ℚ) (p : Player) : Player :=
  let p := { p with pos := { p.pos with x := p.pos.x + p.vel.x } }
  let p := if p.pos.x < 0 then
      { p with pos := { p.pos with x := 0 }, vel := { p.vel with x := 0 } }
    else p
  if p.pos.x > width - p.size.x then
    { p with pos := { p.pos with x := width - p.size.x },
             vel := { p.vel with x := 0 } }
  else p

/-- Resolve the player against one entity in the horizontal pass. -/
def resolveHorizontalEntity (p : Player) (e : Entity) : Player :=
  if e.type = EntityType.text then p
  else if (e.type = EntityType.platform ∨ e.type = EntityType.bouncy) ∧
      checkCollision p.pos p.size e.pos e.size = true then
    let p1 :=
      if p.vel.x > 0 then
        { p with pos := { p.pos with x := e.pos.x - p.size.x } }
      else if p.vel.x < 0 then
        { p with pos := { p.pos with x := e.pos.x + e.size.x } }
      else p
    { p1 with vel := { p1.vel with x := 0 } }
  else p

def horizontalPass (width : ℚ) (es : List Entity) (p : Player) : Player :=
  es.foldl resolveHorizontalEntity (applyHorizontalBounds width p)

/-! ## Vertical collision pass -/

/-- Apply the vertical displacement; past the level height the player is
marked dead (the source compares position.y itself against the height). -/
def applyVerticalMovement (height : ℚ) (p : Player) : Player :=
  let p := { p with pos := { p.pos with y := p.pos.y + p.vel.y } }
  if p.pos.y > height then { p with isDead := true } else p

/-- Resolve the player against one entity in the vertical pass.  The Bool
component accumulates groundedThisFrame. -/
def resolveVerticalEntity (maxJumps : ℕ) (st : Player × Bool) (e : Entity) :
    Player × Bool :=
  let p := st.1
  if e.type = EntityType.text then st
  else if (e.type = EntityType.platform ∨ e.type = EntityType.bouncy) ∧
      checkCollision p.pos p.size e.pos e.size = true then
    if p.vel.y > 0 then
      if e.type = EntityType.bouncy then
        ({ p with pos := { p.pos with y := e.pos.y - p.size.y },
                  vel := { p.vel with y := BOUNCE_FORCE },
                  isGrounded := false,
                  jumpsRemaining := maxJumps }, st.2)
      else
        ({ p with pos := { p.pos with y := e.pos.y - p.size.y },
                  vel := { p.vel with y := 0 } }, true)
    else if p.vel.y < 0 then
      ({ p with pos := { p.pos with y := e.pos.y + e.size.y },
                vel := { p.vel with y := 0 } }, st.2)
    else st
  else st

def verticalPass (height : ℚ) (maxJumps : ℕ) (es : List Entity)
    (p : Player) : Player :=
  let p1 := applyVerticalMovement height p
  let st := es.foldl (resolveVerticalEntity maxJumps) (p1, false)
  let p2 := { st.1 with isGrounded := st.2 }
  if st.2 then { p2 with jumpsRemaining := maxJumps } else p2

/-! ## Crouch stand-up probe -/

/-- canStand: a full-height test rectangle at the current feet position
must not overlap any platform or bouncy entity. -/
def canStandUp (es : List Entity) (p : Player) : Bool :=
  let testPos : Vec2 := { x := p.pos.x, y := p.pos.y - (PLAYER_SIZE - CROUCH_HEIGHT) }
  let testSize : Vec2 := { x := PLAYER_SIZE, y := PLAYER_SIZE }
  es.all fun e =>
    !(decide (e.type = EntityType.platform ∨ e.type = EntityType.bouncy) &&
      checkCollision testPos testSize e.pos e.size)

/-! ## Interaction pass (coins, hazards, finish, checkpoints) -/

/-- State threaded through the interaction pass: the player, the active
checkpoint, the finish latch, and the discrete emissions of the tick
(coin-collected ids, PlayerDamaged count, the HP values handed to
onHealthUpdate, LevelCompleted and CheckpointReached counts). -/
structure InteractionState where
  player : Player
  checkpoint : Vec2
  levelCompleteTriggered : Bool
  coinEvents : List String
  damagedEvents : ℕ
  healthReports : List ℚ
  completedEvents : ℕ
  checkpointEvents : ℕ
deriving DecidableEq

/-- Process one entity of the interaction pass at tick `t`. -/
def interactEntity (t : ℕ) (s : InteractionState) (e : Entity) :
    InteractionState :=
  if e.active = false ∧ e.type ≠ EntityType.checkpoint then s
  else if e.type = EntityType.text then s
  else if checkCollision s.player.pos s.player.size e.pos e.size = true then
    if e.type = EntityType.coin ∧ e.collected = false then
      { s with coinEvents := s.coinEvents ++ [e.id] }
    else if e.type = EntityType.spike ∨ e.type = EntityType.lava then
      if s.player.invulnerableUntil < t then
        let damage := e.damage.getD 1000
        let newHp := s.player.hp - damage
        if newHp > 0 then
          { s with
            player := { s.player with
              hp := newHp,
              invulnerableUntil := t + 60,
              vel := { x := -s.player.vel.x * 1.5, y := -5 } },
            healthReports := s.healthReports ++ [newHp],
            damagedEvents := s.damagedEvents + 1 }
        else
          { s with
            player := { s.player with hp := newHp, isDead := true },
            healthReports := s.healthReports ++ [newHp] }
      else s
    else if e.type = EntityType.finish then
      if s.levelCompleteTriggered = false then
        { s with levelCompleteTriggered := true,
                 completedEvents := s.completedEvents + 1 }
      else s
    else if e.type = EntityType.checkpoint then
      let s1 :=
        if s.checkpoint.x ≠ e.pos.x ∨ s.checkpoint.y ≠ e.pos.y then
          { s with checkpointEvents := s.checkpointEvents + 1 }
        else s
      { s1 with checkpoint := e.pos }
    else s
  else s

def interactionPass (t : ℕ) (es : List Entity) (s : InteractionState) :
    InteractionState :=
  es.foldl (interactEntity t) s

/-- The HP figure shown by the HUD: Math.max(0, currentHp). -/
def displayedHp (hp : ℚ) : ℚ := max 0 hp

/-! ## Session/progression controller -/

structure SessionState where
  lives : ℤ
  coins : ℕ
  score : ℤ
  totalDeaths : ℕ
  collectedCoinIds : List String
  levelDeaths : ℕ
  levelRestarts : ℕ
  resetKey : ℕ
  savedCoins : ℕ
  savedCollectedCoinIds : List String
deriving DecidableEq

/-- handleDeath: bump the per-level death counter and decrement lives;
when the decremented count is not positive, restore lives, revert the
coin counter and collected-set to the level-start snapshot, bump the
restart counter and the reset key (the changed reset key remounts the
canvas, which re-enters the level with the player at the spawn point). -/
def handleDeath (hardcore : Bool) (s : SessionState) : SessionState :=
  let s := { s with levelDeaths := s.levelDeaths + 1 }
  let newLives := s.lives - 1
  let newTotalDeaths := s.totalDeaths + 1
  if newLives ≤ 0 then
    { s with
      collectedCoinIds := s.savedCollectedCoinIds,
      levelRestarts := s.levelRestarts + 1,
      resetKey := s.resetKey + 1,
      lives := if hardcore then hardcoreLives else INITIAL_LIVES,
      coins := s.savedCoins,
      totalDeaths := newTotalDeaths }
  else
    { s with lives := newLives, totalDeaths := newTotalDeaths }

/-! ## Entity motion updater (sinusoidal patrol), over the reals -/

structure MotionEntity where
  pos : ℝ × ℝ
  startPos : Option (ℝ × ℝ)
  patrolRange : Option (ℝ × ℝ)
  moveSpeed : Option ℝ
  moveOffset : Option ℝ

open Classical in
/-- JavaScript numeric `||`: a missing value or the number 0 (which is
falsy) both fall back to the default. -/
noncomputable def jsOrNum (o : Option ℝ) (d : ℝ) : ℝ :=
  match o with
  | none => d
  | some v => if v = 0 then d else v

/-- The per-tick moving-entities pass for one entity: when both
patrolRange and startPos are present, recompute the position as
startPos + sin(t * speed + offset) * patrolRange, with speed defaulting
to 0.05 and offset to 0 via the JavaScript `||` operator. -/
noncomputable def motionUpdate (t : ℕ) (e : MotionEntity) : MotionEntity :=
  match e.patrolRange, e.startPos with
  | some range, some sp =>
    let speed := jsOrNum e.moveSpeed 0.05
    let offset := jsOrNum e.moveOffset 0
    let tau := (t : ℝ) * speed + offset
    { e with pos := (sp.1 + Real.sin tau * range.1,
                     sp.2 + Real.sin tau * range.2) }
  | _, _ => e

/-! ## Concrete sample states used to evaluate the definitions -/

/-- A hazard authored with moveSpeed 0 and a nonzero patrol amplitude. -/
noncomputable def zeroSpeedHazard : MotionEntity :=
  { pos := (0, 0), startPos := some (0, 0), patrolRange := some (1, 0),
    moveSpeed := some 0, moveOffset := some 0 }

def basePlayer : Player :=
  initPlayer MAX_JUMPS DEFAULT_MAX_HP { x := 0, y := 0 }

/-- A vulnerable player standing at the origin. -/
def vulnPlayer : Player :=
  { basePlayer with pos := { x := 0, y := 0 } }

/-- A spike with unspecified damage (instant-kill default 1000). -/
def strongSpike : Entity :=
  { id := "spikeA", type := EntityType.spike, pos := { x := 0, y := 0 },
    size := { x := 40, y := 40 }, damage := none,
    collected := false, active := true }

/-- A weak spike dealing 25 damage, as authored by createWeakSpike. -/
def weakSpike : Entity :=
  { id := "spikeB", type := EntityType.spike, pos := { x := 10, y := 0 },
    size := { x := 40, y := 40 }, damage := some 25,
    collected := false, active := true }

/-- A second weak spike overlapping the same player. -/
def weakSpike2 : Entity :=
  { id := "spikeC", type := EntityType.spike, pos := { x := 0, y := 10 },
    size := { x := 40, y := 40 }, damage := some 25,
    collected := false, active := true }

def baseInteraction : InteractionState :=
  { player := vulnPlayer, checkpoint := { x := 0, y := 0 },
    levelCompleteTriggered := false, coinEvents := [], damagedEvents := 0,
    healthReports := [], completedEvents := 0, checkpointEvents := 0 }

/-- A player one tick away from falling partially below a height-600 level:
after the displacement its top edge is at 580, its bottom edge at 612. -/
def fallPlayer : Player :=
  { basePlayer with pos := { x := 0, y := 570 }, vel := { x := 0, y := 10 } }

/-- An active platform protruding past the left level bound clearance. -/
def leftEdgePlatform : Entity :=
  { id := "platA", type := EntityType.platform, pos := { x := 4, y := 100 },
    size := { x := 100, y := 100 }, damage := none,
    collected := false, active := true }

/-- The same platform with its active flag cleared. -/
def inactivePlatform : Entity :=
  { leftEdgePlatform with
    id := "platB",
    pos := { x := 6, y := 100 },
    active := false }

/-- A player at the left bound moving right into the platform above. -/
def pusherPlayer : Player :=
  { basePlayer with
    pos := { x := 0, y := 100 },
    vel := { x := 1, y := 0 },
    size := { x := 32, y := 32 } }

/-- A platform placed with clearance from both level bounds. -/
def safePlatform : Entity :=
  { id := "platC", type := EntityType.platform, pos := { x := 100, y := 300 },
    size := { x := 50, y := 50 }, damage := none,
    collected := false, active := true }

/-- An inactive, already-collected coin. -/
def collectedCoin : Entity :=
  { id := "coinA", type := EntityType.coin, pos := { x := 0, y := 0 },
    size := { x := 20, y := 20 }, damage := none,
    collected := true, active := false }

/-- A session on its last life, with progress past the level-start snapshot. -/
def lastLifeSession : SessionState :=
  { lives := 1, coins := 7, score := 150, totalDeaths := 4,
    collectedCoinIds := ["c1", "c2", "c3"], levelDeaths := 2,
    levelRestarts := 0, resetKey := 0, savedCoins := 4,
    savedCollectedCoinIds := ["c1"] }

/-! ## Helper lemmas -/

theorem toggle_preserves_exclusion (m : GameModifiers) (k : ModKey)
    (h : exclusionInv m) : exclusionInv (toggleModifier m k) := by
  obtain ⟨e, lg, hg, hc, os, tk⟩ := m
  obtain ⟨h1, h2⟩ := h
  revert h1 h2
  revert e lg hg hc os tk
  cases k <;> decide

theorem toggle_foldl_exclusion (ks : List ModKey) (m : GameModifiers)
    (h : exclusionInv m) : exclusionInv (ks.foldl toggleModifier m) := by
  induction ks generalizing m with
  | nil => exact h
  | cons k ks ih => exact ih _ (toggle_preserves_exclusion m k h)

theorem resolveVertical_isDead (maxJumps : ℕ) (st : Player × Bool)
    (e : Entity) :
    (resolveVerticalEntity maxJumps st e).1.isDead = st.1.isDead := by
  obtain ⟨p, g⟩ := st
  dsimp only [resolveVerticalEntity]
  split_ifs <;> rfl

theorem verticalFold_isDead (maxJumps : ℕ) (es : List Entity)
    (st : Player × Bool) :
    (es.foldl (resolveVerticalEntity maxJumps) st).1.isDead = st.1.isDead := by
  induction es generalizing st with
  | nil => rfl
  | cons e es ih => rw [List.foldl_cons, ih, resolveVertical_isDead]

theorem applyVerticalMovement_isDead (height : ℚ) (p : Player) :
    (applyVerticalMovement height p).isDead =
      (p.isDead || decide (p.pos.y + p.vel.y > height)) := by
  dsimp only [applyVerticalMovement]
  split_ifs with h
  · rw [decide_eq_true h, Bool.or_true]
  · rw [decide_eq_false h, Bool.or_false]

theorem resolveHorizontal_size (q : Player) (e : Entity) :
    (resolveHorizontalEntity q e).size = q.size := by
  dsimp only [resolveHorizontalEntity]
  split_ifs <;> rfl

theorem applyHorizontalBounds_bounds (width : ℚ) (p : Player)
    (hw : p.size.x ≤ width) :
    0 ≤ (applyHorizontalBounds width p).pos.x ∧
      (applyHorizontalBounds width p).pos.x ≤ width - p.size.x := by
  dsimp only [applyHorizontalBounds]
  split_ifs <;> (dsimp only at *) <;> constructor <;> linarith

theorem applyHorizontalBounds_size (width : ℚ) (p : Player) :
    (applyHorizontalBounds width p).size = p.size := by
  dsimp only [applyHorizontalBounds]
  split_ifs <;> rfl

theorem resolveHorizontal_bounds (width : ℚ) (q : Player) (e : Entity)
    (he : (e.type = EntityType.platform ∨ e.type = EntityType.bouncy) →
      0 ≤ e.size.x ∧ q.size.x ≤ e.pos.x ∧
        e.pos.x + e.size.x ≤ width - q.size.x)
    (h0 : 0 ≤ q.size.x) (h1 : 0 ≤ q.pos.x) (h2 : q.pos.x ≤ width - q.size.x) :
    0 ≤ (resolveHorizontalEntity q e).pos.x ∧
      (resolveHorizontalEntity q e).pos.x ≤ width - q.size.x := by
  dsimp only [resolveHorizontalEntity]
  split_ifs with ht hc hv1 hv2
  · exact ⟨h1, h2⟩
  · obtain ⟨hesz, hel, her⟩ := he hc.1
    constructor <;> dsimp only <;> linarith
  · obtain ⟨hesz, hel, her⟩ := he hc.1
    constructor <;> dsimp only <;> linarith
  · exact ⟨h1, h2⟩
  · exact ⟨h1, h2⟩

theorem horizontalFold_bounds (width : ℚ) (es : List Entity) (q : Player)
    (hes : ∀ e ∈ es,
      (e.type = EntityType.platform ∨ e.type = EntityType.bouncy) →
        0 ≤ e.size.x ∧ q.size.x ≤ e.pos.x ∧
          e.pos.x + e.size.x ≤ width - q.size.x)
    (h0 : 0 ≤ q.size.x) (h1 : 0 ≤ q.pos.x)
    (h2 : q.pos.x ≤ width - q.size.x) :
    0 ≤ (es.foldl resolveHorizontalEntity q).pos.x ∧
      (es.foldl resolveHorizontalEntity q).pos.x ≤ width - q.size.x := by
  induction es generalizing q with
  | nil => exact ⟨h1, h2⟩
  | cons e es ih =>
    rw [List.foldl_cons]
    have hsize := resolveHorizontal_size q e
    have hb := resolveHorizontal_bounds width q e (hes e (by simp)) h0 h1 h2
    have hes2 : ∀ e2 ∈ es,
        (e2.type = EntityType.platform ∨ e2.type = EntityType.bouncy) →
          0 ≤ e2.size.x ∧
            (resolveHorizontalEntity q e).size.x ≤ e2.pos.x ∧
            e2.pos.x + e2.size.x ≤
              width - (resolveHorizontalEntity q e).size.x := by
      intro e2 hmem hty
      rw [hsize]
      exact hes e2 (by simp [hmem]) hty
    have h02 : 0 ≤ (resolveHorizontalEntity q e).size.x := by
      rw [hsize]; exact h0
    have h22 : (resolveHorizontalEntity q e).pos.x ≤
        width - (resolveHorizontalEntity q e).size.x := by
      rw [hsize]; exact hb.2
    have hres := ih (resolveHorizontalEntity q e) hes2 h02 hb.1 h22
    rw [hsize] at hres
    exact hres

/-! ## Claim theorems -/

/-- Claim C1: on level completion the contribution to the cumulative score
is determined by the per-level (deaths, restarts) counters — two or more
restarts give 0, exactly one restart gives 25 regardless of deaths, zero
restarts give 100 / 50 / 10 for 0 / at most 2 / 3 or more deaths — then
multiplied by the product of the active modifiers' score multipliers and
floored; with only hardcore active and deaths = restarts = 0 the
contribution is 200. -/
theorem C1_level_score (d r : ℕ) (m : GameModifiers) :
    handleLevelCompletePoints d r m =
      Int.floor
        (((if 2 ≤ r then (0 : ℤ)
           else if r = 1 then 25
           else if d = 0 then 100
           else if d ≤ 2 then 50
           else 10) : ℚ) * calculateScoreMultiplier m) ∧
    handleLevelCompletePoints 0 0 hardcoreOnly = 200 := by
  constructor
  · unfold handleLevelCompletePoints
    split_ifs <;> first | rfl | (exfalso; omega)
  · norm_num [handleLevelCompletePoints, calculateScoreMultiplier,
      hardcoreOnly, initialModifiers, scoreMultOf]

/-- Claim C3: when a reported death exhausts the lives counter, handleDeath
restores lives to the modifier-adjusted start count, reverts the coin
counter and the collected-coin-id set to the level-start snapshot, bumps
the per-level restart counter and the reset key (whose change remounts the
canvas with the player at the spawn point); when lives remain positive the
coin counter and collected-set are untouched. -/
theorem C3_death_reset (hardcore : Bool) (s : SessionState) :
    (s.lives - 1 ≤ 0 →
      (handleDeath hardcore s).lives =
        (if hardcore then hardcoreLives else INITIAL_LIVES) ∧
      (handleDeath hardcore s).coins = s.savedCoins ∧
      (handleDeath hardcore s).collectedCoinIds = s.savedCollectedCoinIds ∧
      (handleDeath hardcore s).levelRestarts = s.levelRestarts + 1 ∧
      (handleDeath hardcore s).resetKey = s.resetKey + 1 ∧
      (∀ mj mh spawn, (initPlayer mj mh spawn).pos = spawn)) ∧
    (0 < s.lives - 1 →
      (handleDeath hardcore s).coins = s.coins ∧
      (handleDeath hardcore s).collectedCoinIds = s.collectedCoinIds ∧
      (handleDeath hardcore s).lives = s.lives - 1) := by
  unfold handleDeath
  constructor
  · intro h
    rw [if_pos
      (show ({ s with levelDeaths := s.levelDeaths + 1 } :
          SessionState).lives - 1 ≤ 0 from h)]
    exact ⟨rfl, rfl, rfl, rfl, rfl, fun _ _ _ => rfl⟩
  · intro h
    rw [if_neg
      (show ¬(({ s with levelDeaths := s.levelDeaths + 1 } :
          SessionState).lives - 1 ≤ 0) from not_le.mpr h)]
    exact ⟨rfl, rfl, rfl⟩

theorem C3_witness :
    (lastLifeSession.lives - 1 ≤ 0) ∧
    (handleDeath true lastLifeSession).lives = 1 ∧
    (handleDeath true lastLifeSession).coins = 4 ∧
    (handleDeath true lastLifeSession).collectedCoinIds = ["c1"] ∧
    (handleDeath true lastLifeSession).levelRestarts = 1 ∧
    (handleDeath true lastLifeSession).resetKey = 1 := by
  have h := (C3_death_reset true lastLifeSession).1 (by decide)
  exact ⟨by decide, h.1, h.2.1, h.2.2.1, h.2.2.2.1, h.2.2.2.2.1⟩

/-- Claim C8: every sequence of modifier toggles starting from the all-off
state keeps heavy gravity exclusive with low gravity and with the reduced
jump count, and enabling one member of an exclusive pair disables the
other. -/
theorem C8_modifier_exclusion (ks : List ModKey) :
    ((ks.foldl toggleModifier initialModifiers).highGravity &&
      (ks.foldl toggleModifier initialModifiers).lowGravity) = false ∧
    ((ks.foldl toggleModifier initialModifiers).highGravity &&
      (ks.foldl toggleModifier initialModifiers).oldSchool) = false ∧
    (∀ m : GameModifiers,
      ((toggleModifier m ModKey.lowGravity).lowGravity = true →
        (toggleModifier m ModKey.lowGravity).highGravity = false) ∧
      ((toggleModifier m ModKey.highGravity).highGravity = true →
        (toggleModifier m ModKey.highGravity).lowGravity = false ∧
        (toggleModifier m ModKey.highGravity).oldSchool = false) ∧
      ((toggleModifier m ModKey.oldSchool).oldSchool = true →
        (toggleModifier m ModKey.oldSchool).highGravity = false)) := by
  refine ⟨(toggle_foldl_exclusion ks initialModifiers (by decide)).1,
          (toggle_foldl_exclusion ks initialModifiers (by decide)).2, ?_⟩
  intro m
  obtain ⟨e, lg, hg, hc, os, tk⟩ := m
  revert e lg hg hc os tk
  decide

theorem C8_witness :
    (([ModKey.highGravity, ModKey.lowGravity].foldl toggleModifier
        initialModifiers).highGravity &&
      ([ModKey.highGravity, ModKey.lowGravity].foldl toggleModifier
        initialModifiers).lowGravity) = false ∧
    (toggleModifier initialModifiers ModKey.highGravity).highGravity = true ∧
    (toggleModifier initialModifiers ModKey.highGravity).lowGravity = false := by
  refine ⟨(C8_modifier_exclusion [ModKey.highGravity, ModKey.lowGravity]).1,
          by decide, ?_⟩
  exact (((C8_modifier_exclusion []).2.2 initialModifiers).2.1 (by decide)).1

/-- Claim C10: the jump-request latch is cleared by every simulation tick
whether or not a jump was granted, and a request arriving with no jumps
remaining leaves the player unchanged — it is discarded, not buffered. -/
theorem C10_jump_latch (f : ℚ) (st : Player × Bool) :
    (jumpStep f st).2 = false ∧
    (st.2 = true → st.1.jumpsRemaining = 0 → (jumpStep f st).1 = st.1) := by
  obtain ⟨p, b⟩ := st
  cases b
  · exact ⟨rfl, fun h _ => by cases h⟩
  · refine ⟨rfl, fun _ hj => ?_⟩
    have hj0 : p.jumpsRemaining = 0 := hj
    simp [jumpStep, hj0]

theorem C10_witness :
    ((({ basePlayer with jumpsRemaining := 0 } : Player), true).2 = true) ∧
    (({ basePlayer with jumpsRemaining := 0 } : Player).jumpsRemaining = 0) ∧
    (jumpStep JUMP_FORCE (({ basePlayer with jumpsRemaining := 0 } : Player),
        true)).1 = ({ basePlayer with jumpsRemaining := 0 } : Player) ∧
    (jumpStep JUMP_FORCE (({ basePlayer with jumpsRemaining := 0 } : Player),
        true)).2 = false := by
  have h := C10_jump_latch JUMP_FORCE
    (({ basePlayer with jumpsRemaining := 0 } : Player), true)
  exact ⟨rfl, rfl, h.2 rfl rfl, h.1⟩

/-- Claim C6 counterexample: after the vertical displacement the player's
bottom edge (612) exceeds the level height (600), yet the player is not
marked dead — the source compares the top edge, position.y, against the
height, so the claimed iff fails. -/
theorem C6_counterexample :
    (verticalPass 600 MAX_JUMPS [] fallPlayer).pos.y +
        (verticalPass 600 MAX_JUMPS [] fallPlayer).size.y > 600 ∧
    (verticalPass 600 MAX_JUMPS [] fallPlayer).isDead = false := by
  norm_num [verticalPass, applyVerticalMovement, fallPlayer, basePlayer,
    initPlayer, PLAYER_SIZE, DEFAULT_MAX_HP, MAX_JUMPS]

/-- Claim C6 (amended): in the vertical pass the player is marked dead iff
it was already dead or its top edge — position.y, not the bottom edge
position.y + size.y — exceeds the level height after the vertical
displacement; the check is independent of HP and of the entity list. -/
theorem C6_vertical_oob (height : ℚ) (maxJumps : ℕ) (es : List Entity)
    (p : Player) :
    (verticalPass height maxJumps es p).isDead =
      (p.isDead || decide (p.pos.y + p.vel.y > height)) := by
  have h1 : (verticalPass height maxJumps es p).isDead =
      (es.foldl (resolveVerticalEntity maxJumps)
        (applyVerticalMovement height p, false)).1.isDead := by
    dsimp only [verticalPass]
    rw [apply_ite Player.isDead]
    dsimp only
    rw [ite_self]
  rw [h1, verticalFold_isDead]
  exact applyVerticalMovement_isDead height p

/-- Claim C7 counterexample: the entity push-out runs after the bound
clamp, so a platform protruding into the left clearance zone pushes the
player to position.x = -28 < 0 — the claimed invariant fails for this
entity configuration. -/
theorem C7_counterexample :
    (horizontalPass 800 [leftEdgePlatform] pusherPlayer).pos.x < 0 := by
  norm_num +decide [horizontalPass, applyHorizontalBounds,
    resolveHorizontalEntity, checkCollision, leftEdgePlatform, pusherPlayer,
    basePlayer, initPlayer, PLAYER_SIZE, DEFAULT_MAX_HP, MAX_JUMPS]

/-- Claim C7 (amended): after the clamp sub-step the player's position.x
always lies in [0, width - size.x]; the full horizontal pass keeps it
there only under a clearance condition on the platform/bouncy entities
(each must lie at least a player width inside both level bounds) —
without that clearance the push-out can leave the bounds, as the
counterexample shows. -/
theorem C7_horizontal_bounds (width : ℚ) (es : List Entity) (p : Player)
    (h0 : 0 ≤ p.size.x) (hw : p.size.x ≤ width)
    (hes : ∀ e ∈ es,
      (e.type = EntityType.platform ∨ e.type = EntityType.bouncy) →
        0 ≤ e.size.x ∧ p.size.x ≤ e.pos.x ∧
          e.pos.x + e.size.x ≤ width - p.size.x) :
    (0 ≤ (applyHorizontalBounds width p).pos.x ∧
      (applyHorizontalBounds width p).pos.x ≤ width - p.size.x) ∧
    (0 ≤ (horizontalPass width es p).pos.x ∧
      (horizontalPass width es p).pos.x ≤ width - p.size.x) := by
  have hclamp := applyHorizontalBounds_bounds width p hw
  have hsize := applyHorizontalBounds_size width p
  refine ⟨hclamp, ?_⟩
  have hes2 : ∀ e ∈ es,
      (e.type = EntityType.platform ∨ e.type = EntityType.bouncy) →
        0 ≤ e.size.x ∧
          (applyHorizontalBounds width p).size.x ≤ e.pos.x ∧
          e.pos.x + e.size.x ≤
            width - (applyHorizontalBounds width p).size.x := by
    intro e hmem hty
    rw [hsize]
    exact hes e hmem hty
  have h02 : 0 ≤ (applyHorizontalBounds width p).size.x := by
    rw [hsize]; exact h0
  have h22 : (applyHorizontalBounds width p).pos.x ≤
      width - (applyHorizontalBounds width p).size.x := by
    rw [hsize]; exact hclamp.2
  have hres := horizontalFold_bounds width es (applyHorizontalBounds width p)
    hes2 h02 hclamp.1 h22
  rw [hsize] at hres
  exact hres

theorem C7_witness :
    (0 ≤ basePlayer.size.x) ∧ (basePlayer.size.x ≤ 800) ∧
    (0 ≤ (horizontalPass 800 [safePlatform] basePlayer).pos.x ∧
      (horizontalPass 800 [safePlatform] basePlayer).pos.x ≤
        800 - basePlayer.size.x) := by
  have h0 : (0 : ℚ) ≤ basePlayer.size.x := by
    norm_num [basePlayer, initPlayer, PLAYER_SIZE]
  have hw : basePlayer.size.x ≤ 800 := by
    norm_num [basePlayer, initPlayer, PLAYER_SIZE]
  refine ⟨h0, hw, ?_⟩
  refine (C7_horizontal_bounds 800 [safePlatform] basePlayer h0 hw ?_).2
  intro e hmem hty
  simp only [List.mem_singleton] at hmem
  subst hmem
  norm_num [safePlatform, basePlayer, initPlayer, PLAYER_SIZE]

/-- Claim C9 counterexample: the horizontal pass never consults the active
flag, so a platform with active = false still collides and changes the
player's position — an inactive entity does participate in collision. -/
theorem C9_counterexample :
    (horizontalPass 800 [inactivePlatform] pusherPlayer).pos.x ≠
      (horizontalPass 800 [] pusherPlayer).pos.x := by
  norm_num +decide [horizontalPass, applyHorizontalBounds,
    resolveHorizontalEntity, checkCollision, inactivePlatform,
    leftEdgePlatform, pusherPlayer, basePlayer, initPlayer, PLAYER_SIZE,
    DEFAULT_MAX_HP, MAX_JUMPS]

/-- Claim C9 (amended): only the interaction pass skips inactive entities;
the horizontal, vertical, and crouch stand-up passes ignore the active
flag but consider only platform/bouncy types.  Since only coins are ever
deactivated, an inactive non-platform/bouncy entity (a collected coin)
affects none of the four passes — but an inactive platform or bouncy
entity would still collide, as the counterexample shows. -/
theorem C9_inactive_no_effect (e : Entity) (hact : e.active = false)
    (hpl : e.type ≠ EntityType.platform) (hbo : e.type ≠ EntityType.bouncy)
    (hck : e.type ≠ EntityType.checkpoint) :
    (∀ q : Player, resolveHorizontalEntity q e = q) ∧
    (∀ (mj : ℕ) (st : Player × Bool), resolveVerticalEntity mj st e = st) ∧
    (∀ (t : ℕ) (s : InteractionState), interactEntity t s e = s) ∧
    (∀ (es : List Entity) (q : Player),
      canStandUp (e :: es) q = canStandUp es q) := by
  refine ⟨?_, ?_, ?_, ?_⟩
  · intro q
    dsimp only [resolveHorizontalEntity]
    split_ifs with h1 h2 <;> try rfl
    all_goals
      rcases h2.1 with h | h
      · exact absurd h hpl
      · exact absurd h hbo
  · intro mj st
    obtain ⟨p, g⟩ := st
    dsimp only [resolveVerticalEntity]
    split_ifs with h1 h2 <;> try rfl
    all_goals
      rcases h2.1 with h | h
      · exact absurd h hpl
      · exact absurd h hbo
  · intro t s
    dsimp only [interactEntity]
    rw [if_pos ⟨hact, hck⟩]
  · intro es q
    dsimp only [canStandUp]
    rw [List.all_cons]
    have : decide (e.type = EntityType.platform ∨
        e.type = EntityType.bouncy) = false := by
      simp [hpl, hbo]
    rw [this]
    simp

theorem C9_witness :
    collectedCoin.active = false ∧
    collectedCoin.type ≠ EntityType.platform ∧
    collectedCoin.type ≠ EntityType.bouncy ∧
    collectedCoin.type ≠ EntityType.checkpoint ∧
    interactEntity 5 baseInteraction collectedCoin = baseInteraction ∧
    resolveHorizontalEntity pusherPlayer collectedCoin = pusherPlayer := by
  have h := C9_inactive_no_effect collectedCoin rfl (by decide) (by decide)
    (by decide)
  exact ⟨rfl, by decide, by decide, by decide, h.2.2.1 5 baseInteraction,
    h.1 pusherPlayer⟩

theorem interact_hazard_hit (t : ℕ) (s : InteractionState) (e : Entity)
    (he : e.type = EntityType.spike ∨ e.type = EntityType.lava)
    (ha : e.active = true)
    (hc : checkCollision s.player.pos s.player.size e.pos e.size = true)
    (hv : s.player.invulnerableUntil < t) :
    interactEntity t s e =
      (if s.player.hp - e.damage.getD 1000 > 0 then
        { s with
          player := { s.player with
            hp := s.player.hp - e.damage.getD 1000,
            invulnerableUntil := t + 60,
            vel := { x := -s.player.vel.x * 1.5, y := -5 } },
          healthReports :=
            s.healthReports ++ [s.player.hp - e.damage.getD 1000],
          damagedEvents := s.damagedEvents + 1 }
      else
        { s with
          player := { s.player with
            hp := s.player.hp - e.damage.getD 1000, isDead := true },
          healthReports :=
            s.healthReports ++ [s.player.hp - e.damage.getD 1000] }) := by
  have htext : ¬e.type = EntityType.text := by
    rcases he with h | h <;> simp [h]
  have hcoin : ¬(e.type = EntityType.coin ∧ e.collected = false) := by
    rcases he with h | h <;> simp [h]
  have hguard : ¬(e.active = false ∧ e.type ≠ EntityType.checkpoint) := by
    simp [ha]
  dsimp only [interactEntity]
  rw [if_neg hguard, if_neg htext, if_pos hc, if_neg hcoin, if_pos he,
    if_pos hv]

theorem interact_hazard_gated (t : ℕ) (s : InteractionState) (e : Entity)
    (he : e.type = EntityType.spike ∨ e.type = EntityType.lava)
    (hv : ¬(s.player.invulnerableUntil < t)) :
    interactEntity t s e = s := by
  dsimp only [interactEntity]
  split_ifs <;>
    first
      | rfl
      | (exfalso; rcases he with h | h <;> simp_all)

/-- Claim C4 counterexample: a 1000-damage default hit at 100 HP makes the
damage branch hand -900 to onHealthUpdate — the HP value reported to the
presentation layer can be negative. -/
theorem C4_counterexample :
    (interactEntity 1 baseInteraction strongSpike).healthReports = [-900] ∧
    ((-900 : ℚ) < 0) := by
  constructor
  · norm_num +decide [interactEntity, baseInteraction, strongSpike,
      vulnPlayer, basePlayer, initPlayer, checkCollision, PLAYER_SIZE,
      DEFAULT_MAX_HP, MAX_JUMPS]
  · norm_num

/-- Claim C4 (amended): the HP figure displayed by the HUD, max(0, hp), is
never negative, though the raw value passed to onHealthUpdate can be;
whenever hazard damage brings HP to zero or below the player is marked
dead on the same tick with no knockback impulse and no invulnerability
window, and the knockback (upward velocity, inverted and amplified
horizontal velocity) is applied only when HP stays positive. -/
theorem C4_hp_and_death (t : ℕ) (s : InteractionState) (e : Entity)
    (he : e.type = EntityType.spike ∨ e.type = EntityType.lava)
    (ha : e.active = true)
    (hc : checkCollision s.player.pos s.player.size e.pos e.size = true)
    (hv : s.player.invulnerableUntil < t) :
    (∀ hp : ℚ, 0 ≤ displayedHp hp) ∧
    (s.player.hp - e.damage.getD 1000 ≤ 0 →
      (interactEntity t s e).player.isDead = true ∧
      (interactEntity t s e).player.vel = s.player.vel ∧
      (interactEntity t s e).player.invulnerableUntil =
        s.player.invulnerableUntil ∧
      (interactEntity t s e).damagedEvents = s.damagedEvents) ∧
    (0 < s.player.hp - e.damage.getD 1000 →
      (interactEntity t s e).player.isDead = s.player.isDead ∧
      (interactEntity t s e).player.vel =
        { x := -s.player.vel.x * 1.5, y := -5 } ∧
      (interactEntity t s e).damagedEvents = s.damagedEvents + 1) := by
  refine ⟨fun hp => le_max_left 0 hp, ?_, ?_⟩
  · intro hle
    rw [interact_hazard_hit t s e he ha hc hv, if_neg (not_lt.mpr hle)]
    exact ⟨rfl, rfl, rfl, rfl⟩
  · intro hlt
    rw [interact_hazard_hit t s e he ha hc hv, if_pos hlt]
    exact ⟨rfl, rfl, rfl⟩

theorem C4_witness :
    (strongSpike.type = EntityType.spike ∨
      strongSpike.type = EntityType.lava) ∧
    strongSpike.active = true ∧
    checkCollision baseInteraction.player.pos baseInteraction.player.size
      strongSpike.pos strongSpike.size = true ∧
    baseInteraction.player.invulnerableUntil < 1 ∧
    baseInteraction.player.hp - strongSpike.damage.getD 1000 ≤ 0 ∧
    (interactEntity 1 baseInteraction strongSpike).player.isDead = true ∧
    (interactEntity 1 baseInteraction strongSpike).player.vel =
      baseInteraction.player.vel := by
  have hc : checkCollision baseInteraction.player.pos
      baseInteraction.player.size strongSpike.pos strongSpike.size = true := by
    norm_num [checkCollision, baseInteraction, strongSpike, vulnPlayer,
      basePlayer, initPlayer, PLAYER_SIZE, DEFAULT_MAX_HP]
  have hv : baseInteraction.player.invulnerableUntil < 1 :=
    Nat.zero_lt_one
  have hle : baseInteraction.player.hp - strongSpike.damage.getD 1000 ≤ 0 := by
    norm_num [baseInteraction, strongSpike, vulnPlayer, basePlayer,
      initPlayer, DEFAULT_MAX_HP]
  have h := (C4_hp_and_death 1 baseInteraction strongSpike (Or.inl rfl)
    rfl hc hv).2.1 hle
  exact ⟨Or.inl rfl, rfl, hc, hv, hle, h.1, h.2.1⟩

/-- Claim C5: a hazard hit at a vulnerable tick that leaves HP positive
opens the invulnerability window (until tick t + 60), emits exactly one
PlayerDamaged event and reduces HP exactly once; any further hazard
overlap at a tick not exceeding the window — including a second
overlapping hazard on the same tick — changes no state and emits
nothing, so the pair yields exactly one event. -/
theorem C5_invulnerability_gate (t : ℕ) (s : InteractionState)
    (e1 e2 : Entity)
    (he1 : e1.type = EntityType.spike ∨ e1.type = EntityType.lava)
    (ha1 : e1.active = true)
    (hc1 : checkCollision s.player.pos s.player.size e1.pos e1.size = true)
    (he2 : e2.type = EntityType.spike ∨ e2.type = EntityType.lava)
    (hv : s.player.invulnerableUntil < t)
    (hs : 0 < s.player.hp - e1.damage.getD 1000) :
    (interactEntity t s e1).player.invulnerableUntil = t + 60 ∧
    (interactEntity t s e1).player.hp =
      s.player.hp - e1.damage.getD 1000 ∧
    (interactEntity t s e1).damagedEvents = s.damagedEvents + 1 ∧
    (∀ t2 : ℕ, t2 ≤ (interactEntity t s e1).player.invulnerableUntil →
      interactEntity t2 (interactEntity t s e1) e2 = interactEntity t s e1) ∧
    (interactionPass t [e1, e2] s).damagedEvents = s.damagedEvents + 1 ∧
    (interactionPass t [e1, e2] s).player.hp =
      s.player.hp - e1.damage.getD 1000 := by
  have hhit := interact_hazard_hit t s e1 he1 ha1 hc1 hv
  rw [if_pos hs] at hhit
  have hgate : ∀ t2 : ℕ,
      t2 ≤ (interactEntity t s e1).player.invulnerableUntil →
      interactEntity t2 (interactEntity t s e1) e2 = interactEntity t s e1 :=
    fun t2 ht2 =>
      interact_hazard_gated t2 (interactEntity t s e1) e2 he2
        (not_lt.mpr ht2)
  have hpass : interactionPass t [e1, e2] s = interactEntity t s e1 := by
    show interactEntity t (interactEntity t s e1) e2 = interactEntity t s e1
    refine hgate t ?_
    rw [hhit]
    exact Nat.le_add_right t 60
  refine ⟨by rw [hhit], by rw [hhit], by rw [hhit], hgate, ?_, ?_⟩
  · rw [hpass, hhit]
  · rw [hpass, hhit]

theorem C5_witness :
    baseInteraction.player.invulnerableUntil < 1 ∧
    (0 : ℚ) < baseInteraction.player.hp - weakSpike.damage.getD 1000 ∧
    (interactionPass 1 [weakSpike, weakSpike2]
        baseInteraction).damagedEvents = baseInteraction.damagedEvents + 1 ∧
    (interactionPass 1 [weakSpike, weakSpike2] baseInteraction).player.hp =
      baseInteraction.player.hp - weakSpike.damage.getD 1000 := by
  have hc1 : checkCollision baseInteraction.player.pos
      baseInteraction.player.size weakSpike.pos weakSpike.size = true := by
    norm_num [checkCollision, baseInteraction, weakSpike, vulnPlayer,
      basePlayer, initPlayer, PLAYER_SIZE, DEFAULT_MAX_HP]
  have hv : baseInteraction.player.invulnerableUntil < 1 :=
    Nat.zero_lt_one
  have hs : (0 : ℚ) <
      baseInteraction.player.hp - weakSpike.damage.getD 1000 := by
    norm_num [baseInteraction, weakSpike, vulnPlayer, basePlayer,
      initPlayer, DEFAULT_MAX_HP]
  have h := C5_invulnerability_gate 1 baseInteraction weakSpike weakSpike2
    (Or.inl rfl) rfl hc1 (Or.inl rfl) hv hs
  exact ⟨hv, hs, h.2.2.2.2.1, h.2.2.2.2.2⟩

theorem jsOrNum_some_zero (d : ℝ) : jsOrNum (some 0) d = d := by
  simp [jsOrNum]

theorem jsOrNum_some_of_ne (v d : ℝ) (h : v ≠ 0) :
    jsOrNum (some v) d = v := by
  simp [jsOrNum, h]

theorem motionUpdate_patrol (t : ℕ) (e : MotionEntity) (range sp : ℝ × ℝ)
    (hr : e.patrolRange = some range) (hsp : e.startPos = some sp) :
    (motionUpdate t e).pos =
      (sp.1 + Real.sin ((t : ℝ) * jsOrNum e.moveSpeed 0.05 +
          jsOrNum e.moveOffset 0) * range.1,
       sp.2 + Real.sin ((t : ℝ) * jsOrNum e.moveSpeed 0.05 +
          jsOrNum e.moveOffset 0) * range.2) := by
  unfold motionUpdate
  rw [hr, hsp]

/-- Claim C2 counterexample: a patrol entity with moveSpeed 0 and amplitude
(1, 0) moves between tick 0 and tick 1 — JavaScript's numeric `||` treats
0 as falsy, so the speed falls back to the default 0.05 and the hazard is
not static. -/
theorem C2_counterexample :
    (motionUpdate 1 zeroSpeedHazard).pos ≠ zeroSpeedHazard.pos := by
  have hred := motionUpdate_patrol 1 zeroSpeedHazard (1, 0) (0, 0) rfl rfl
  have hspeed : jsOrNum zeroSpeedHazard.moveSpeed 0.05 = 0.05 :=
    jsOrNum_some_zero 0.05
  have hoff : jsOrNum zeroSpeedHazard.moveOffset 0 = 0 :=
    jsOrNum_some_zero 0
  rw [hspeed, hoff] at hred
  have harg : ((1 : ℕ) : ℝ) * (0.05 : ℝ) + 0 = 1 / 20 := by norm_num
  rw [harg] at hred
  have hsin : 0 < Real.sin ((1 : ℝ) / 20) := by
    apply Real.sin_pos_of_pos_of_lt_pi
    · norm_num
    · have h3 := Real.pi_gt_three
      linarith
  intro hcontra
  rw [hred] at hcontra
  have h1 := congrArg Prod.fst hcontra
  simp only [zeroSpeedHazard] at h1
  norm_num at h1
  linarith

/-- Claim C2 (amended): for a patrol entity, moveSpeed = 0 is coerced by
the `||` default to 0.05, so the motion with moveSpeed 0 equals the
motion with moveSpeed 0.05 — not a static entity; the entity is static
exactly when its patrol amplitude is zero (patrolRange = (0, 0), which is
how the levels author stationary hazards) or it has no patrol attribute
at all. -/
theorem C2_zero_speed (t : ℕ) (e : MotionEntity)
    (h0 : e.moveSpeed = some 0) :
    (motionUpdate t e).pos =
      (motionUpdate t { e with moveSpeed := some 0.05 }).pos ∧
    (∀ sp : ℝ × ℝ, e.startPos = some sp → e.patrolRange = some (0, 0) →
      (motionUpdate t e).pos = sp) := by
  constructor
  · rcases hr : e.patrolRange with _ | range <;>
      rcases hsp : e.startPos with _ | sp
    · unfold motionUpdate
      rw [hr]
    · unfold motionUpdate
      rw [hr]
    · unfold motionUpdate
      rw [hr, hsp]
    · rw [motionUpdate_patrol t e range sp hr hsp]
      rw [motionUpdate_patrol t
        { pos := e.pos, startPos := some sp, patrolRange := some range,
          moveSpeed := some 0.05, moveOffset := e.moveOffset } range sp rfl
          rfl]
      rw [h0]
      dsimp only
      rw [jsOrNum_some_zero, jsOrNum_some_of_ne 0.05 0.05 (by norm_num)]
  · intro sp hsp hr
    rw [motionUpdate_patrol t e (0, 0) sp hr hsp]
    simp

theorem C2_witness :
    zeroSpeedHazard.moveSpeed = some 0 ∧
    (motionUpdate 3 zeroSpeedHazard).pos =
      (motionUpdate 3
        { zeroSpeedHazard with moveSpeed := some 0.05 }).pos :=
  ⟨rfl, (C2_zero_speed 3 zeroSpeedHazard rfl).1⟩

end CubeParkour
